import Mathlib

/-!
Verification of the regional band parameter engine, band registry, XTime
packing, channel-mask codec and the websocket traffic handler of the
lorawan-stack sources.

Machine integers of the Go sources are embedded as `Nat`/`Int` with explicit
wrapping where the source performs a narrowing conversion (`int8`).
Fallible Go functions returning `(T, error)` are embedded as `Except`.
-/

namespace LorawanStack

/-- Typed failures of the band package (`errDataRateIndexTooHigh`,
`errDataRateOffsetTooHigh`, `errBandNotFound` in the Go sources). -/
inductive BandError
  | dataRateIndexTooHigh
  | dataRateOffsetTooHigh
  | bandNotFound
deriving DecidableEq, Repr

instance {ε α : Type} [DecidableEq ε] [DecidableEq α] : DecidableEq (Except ε α) :=
  fun a b =>
    match a, b with
    | .ok x, .ok y =>
      if h : x = y then .isTrue (by rw [h]) else .isFalse (by simp [h])
    | .error x, .error y =>
      if h : x = y then .isTrue (by rw [h]) else .isFalse (by simp [h])
    | .ok _, .error _ => .isFalse (by simp)
    | .error _, .ok _ => .isFalse (by simp)

/-- Go's `int8(x)` narrowing conversion on an integer: wrap into [-128, 127]. -/
def wrap8 (x : Int) : Int := (x + 128) % 256 - 128

/-- The `Rx1DataRate` closure of the AS923 RP002-1.0.2 band family
(`as923RP2102Band` in `pkg/band/as_923_rp2_v1_0_2.go`):
`so := int8(offset); if so > 5 { so = 5 - so }; si := int8(idx) - so;`
the result is `minDR` (`DATA_RATE_2` under dwell time, else `DATA_RATE_0`)
when `si <= minDR`, `DATA_RATE_7` when `si >= 7`, and `si` otherwise.
It never returns an error. -/
def as923Rx1DataRate (idx offset : Nat) (dwellTime : Bool) : Except BandError Int :=
  let so0 : Int := wrap8 offset
  let so : Int := if so0 > 5 then wrap8 (5 - so0) else so0
  let si : Int := wrap8 (wrap8 idx - so)
  let minDR : Int := if dwellTime then 2 else 0
  if si ≤ minDR then .ok minDR
  else if si ≥ 7 then .ok 7
  else .ok si

/-- MaxADRDataRateIndex of the AS923 RP002-1.0.2 band family
(`pkg/band/as_923_rp2_v1_0_2.go` line 54): `DATA_RATE_5`. -/
def AS_923_RP2_v1_0_2_MaxADRDataRateIndex : Int := 5

/-- MaxADRDataRateIndex of the CN470-510 26MHz type A RP002-1.0.0 band
(`pkg/band/cn_470_510_26_a_rp2_v1_0_0.go` line 49): `DATA_RATE_5`. -/
def CN_470_510_26_A_RP2_v1_0_0_MaxADRDataRateIndex : Int := 5

/-- Modelled from the spec: `cn470510DownlinkDRTable` is referenced by
`pkg/band/cn_470_510_26_a_rp2_v1_0_0.go` but its defining file is not among
the sources. Per the spec, the RX1 rule subtracts the offset from the uplink
index and clamps the result to the band's data-rate range, here [0, 5]
(truncated `Nat` subtraction provides the lower clamp). -/
def cn470510DownlinkDRTable (idx offset : Nat) : Nat :=
  min 5 (idx - offset)

/-- The `Rx1DataRate` closure of the CN470-510 26MHz type A RP002-1.0.0 band
(`pkg/band/cn_470_510_26_a_rp2_v1_0_0.go` lines 74-83): rejects
`idx > DATA_RATE_5` with `errDataRateIndexTooHigh` and `offset > 5` with
`errDataRateOffsetTooHigh`, otherwise looks up `cn470510DownlinkDRTable`.
The dwell-time flag is ignored (`_` in the source). -/
def cn47051026ARx1DataRate (idx offset : Nat) (_dwellTime : Bool) :
    Except BandError Int :=
  if idx > 5 then .error .dataRateIndexTooHigh
  else if offset > 5 then .error .dataRateOffsetTooHigh
  else .ok (cn470510DownlinkDRTable idx offset)

/-- Specification-side formula for the AS923 RP2 v1.0.2 RX1 data rate, stated
the way claim C2 words it: an effective signed offset equal to `offset` when
`offset ≤ 5` and to `5 - offset` when `offset > 5`, subtracted from `idx`,
clamped below to `DATA_RATE_2` under dwell time and `DATA_RATE_0` otherwise,
and above to `DATA_RATE_7`. -/
def as923Rx1SpecFormula (idx offset : Nat) (dwellTime : Bool) : Int :=
  let so : Int := if (offset : Int) > 5 then 5 - (offset : Int) else (offset : Int)
  let si : Int := (idx : Int) - so
  let minDR : Int := if dwellTime then 2 else 0
  max minDR (min 7 si)

/-- Modelled from the spec: `generateChMask16` is referenced by
`pkg/band/as_923_rp2_v1_0_2.go` but its defining file is not among the
sources. Per the spec the 16-channel codec represents the enabled set as a
single 16-bit block. -/
def generateChMask16 (s : Fin 16 → Bool) : List (Fin 16 → Bool) := [s]

/-- Modelled from the spec: `parseChMask16` is referenced by
`pkg/band/as_923_rp2_v1_0_2.go` but its defining file is not among the
sources. Per the spec it reads the enabled set back from the single 16-bit
block. -/
def parseChMask16 (blocks : List (Fin 16 → Bool)) : Fin 16 → Bool :=
  fun i =>
    match blocks with
    | [b] => b i
    | _ => false

/-- Modelled from the spec: `generateChMask48` is referenced by
`pkg/band/cn_470_510_26_a_rp2_v1_0_0.go` but its defining file is not among
the sources. Per the spec a 48-channel band splits the enabled set into
three 16-bit blocks with defined ordering (channels 0-15, 16-31, 32-47). -/
def generateChMask48 (s : Fin 48 → Bool) : List (Fin 16 → Bool) :=
  [fun j => s ⟨j.val, by omega⟩,
   fun j => s ⟨16 + j.val, by omega⟩,
   fun j => s ⟨32 + j.val, by omega⟩]

/-- Modelled from the spec: `parseChMask48` is referenced by
`pkg/band/cn_470_510_26_a_rp2_v1_0_0.go` but its defining file is not among
the sources. Per the spec it reassembles the enabled set from the three
16-bit blocks in their defined ordering. -/
def parseChMask48 (blocks : List (Fin 16 → Bool)) : Fin 48 → Bool :=
  fun i =>
    match blocks with
    | [b0, b1, b2] =>
      if h : i.val < 16 then b0 ⟨i.val, h⟩
      else if h2 : i.val < 32 then b1 ⟨i.val - 16, by omega⟩
      else b2 ⟨i.val - 32, by omega⟩
    | _ => false

/-- Modelled from the spec: the XTime encoder packs the session id and the
concentrator time into disjoint bit ranges of a single counter; the
concentrator time occupies the low 48 bits and the session id the bits
above them. The decoders `SessionIDFromXTime` and `ConcentratorTimeFromXTime`
(referenced by `TestTransferTime`) extract those bit ranges. -/
def encodeXTime (sessionID concentratorTime : Nat) : Nat :=
  sessionID * 2 ^ 48 + concentratorTime % 2 ^ 48

/-- Modelled from the spec: the session id occupies the bits above bit 48 of
an XTime value. -/
def SessionIDFromXTime (x : Nat) : Nat := x / 2 ^ 48

/-- Modelled from the spec: the concentrator time occupies the low 48 bits of
an XTime value. -/
def ConcentratorTimeFromXTime (x : Nat) : Nat := x % 2 ^ 48

/-- LoRaWAN regional-parameter protocol versions (`ttnpb.PHYVersion`) used as
keys of the band registry. -/
inductive PHYVersion
  | TS001_V1_0
  | TS001_V1_0_1
  | RP001_V1_0_2
  | RP001_V1_0_2_REV_B
  | RP001_V1_0_3_REV_A
  | RP001_V1_1_REV_A
  | RP001_V1_1_REV_B
  | RP002_V1_0_0
deriving DecidableEq, BEq, Repr

/-- The band registry `All` of `pkg/band` (the `All` map in the sources),
mirrored entry for entry. Region ids are the Go string constants; each band
table value is represented by the name of the Go variable holding it, which
is all the registry-lookup claims depend on. -/
def All : List (String × List (PHYVersion × String)) :=
  [("AS_923",
    [(.RP001_V1_0_2, "AS_923_RP1_v1_0_2"),
     (.RP001_V1_0_2_REV_B, "AS_923_RP1_v1_0_2_RevB"),
     (.RP001_V1_0_3_REV_A, "AS_923_RP1_v1_0_3_RevA"),
     (.RP001_V1_1_REV_A, "AS_923_RP1_v1_1_RevA"),
     (.RP001_V1_1_REV_B, "AS_923_RP1_v1_1_RevB"),
     (.RP002_V1_0_0, "AS_923_RP2_v1_0_0")]),
   ("AU_915_928",
    [(.TS001_V1_0_1, "AU_915_928_TS1_v1_0_1"),
     (.RP001_V1_0_2, "AU_915_928_RP1_v1_0_2"),
     (.RP001_V1_0_2_REV_B, "AU_915_928_RP1_v1_0_2_RevB"),
     (.RP001_V1_0_3_REV_A, "AU_915_928_RP1_v1_0_3_RevA"),
     (.RP001_V1_1_REV_A, "AU_915_928_RP1_v1_1_RevA"),
     (.RP001_V1_1_REV_B, "AU_915_928_RP1_v1_1_RevB"),
     (.RP002_V1_0_0, "AU_915_928_RP2_v1_0_0")]),
   ("CN_470_510",
    [(.TS001_V1_0_1, "CN_470_510_TS1_v1_0_1"),
     (.RP001_V1_0_2, "CN_470_510_RP1_v1_0_2"),
     (.RP001_V1_0_2_REV_B, "CN_470_510_RP1_v1_0_2_RevB"),
     (.RP001_V1_0_3_REV_A, "CN_470_510_RP1_v1_0_3_RevA"),
     (.RP001_V1_1_REV_A, "CN_470_510_RP1_v1_1_RevA"),
     (.RP001_V1_1_REV_B, "CN_470_510_RP1_v1_1_RevB")]),
   ("CN_470_510_20_A", [(.RP002_V1_0_0, "CN_470_510_20_A_RP2_v1_0_0")]),
   ("CN_470_510_20_B", [(.RP002_V1_0_0, "CN_470_510_20_B_RP2_v1_0_0")]),
   ("CN_470_510_26_A", [(.RP002_V1_0_0, "CN_470_510_26_A_RP2_v1_0_0")]),
   ("CN_470_510_26_B", [(.RP002_V1_0_0, "CN_470_510_26_B_RP2_v1_0_0")]),
   ("CN_779_787",
    [(.TS001_V1_0, "CN_779_787_RP1_V1_0"),
     (.TS001_V1_0_1, "CN_779_787_RP1_V1_0_1"),
     (.RP001_V1_0_2, "CN_779_787_RP1_V1_0_2"),
     (.RP001_V1_0_2_REV_B, "CN_779_787_RP1_V1_0_2_RevB"),
     (.RP001_V1_0_3_REV_A, "CN_779_787_RP1_V1_0_3_RevA"),
     (.RP001_V1_1_REV_A, "CN_779_787_RP1_V1_1_RevA"),
     (.RP001_V1_1_REV_B, "CN_779_787_RP1_V1_1_RevB"),
     (.RP002_V1_0_0, "CN_779_787_RP2_V1_0_0")]),
   ("EU_433",
    [(.TS001_V1_0, "EU_433_TS1_V1_0"),
     (.TS001_V1_0_1, "EU_433_TS1_V1_0_1"),
     (.RP001_V1_0_2, "EU_433_RP1_V1_0_2"),
     (.RP001_V1_0_2_REV_B, "EU_433_RP1_V1_0_2_Rev_B"),
     (.RP001_V1_0_3_REV_A, "EU_433_RP1_V1_0_3_Rev_A"),
     (.RP001_V1_1_REV_A, "EU_433_RP1_V1_1_Rev_A"),
     (.RP001_V1_1_REV_B, "EU_433_RP1_V1_1_Rev_B"),
     (.RP002_V1_0_0, "EU_433_RP2_V1_0_0")]),
   ("EU_863_870",
    [(.TS001_V1_0, "EU_863_870_TS1_V1_0"),
     (.TS001_V1_0_1, "EU_863_870_TS1_V1_0_1"),
     (.RP001_V1_0_2, "EU_863_870_RP1_V1_0_2"),
     (.RP001_V1_0_2_REV_B, "EU_863_870_RP1_V1_0_2_Rev_B"),
     (.RP001_V1_0_3_REV_A, "EU_863_870_RP1_V1_0_3_Rev_A"),
     (.RP001_V1_1_REV_A, "EU_863_870_RP1_V1_1_Rev_A"),
     (.RP001_V1_1_REV_B, "EU_863_870_RP1_V1_1_Rev_B"),
     (.RP002_V1_0_0, "EU_863_870_RP2_V1_0_0")]),
   ("IN_865_867",
    [(.RP001_V1_0_2_REV_B, "IN_865_867_RP1_V1_0_2_Rev_B"),
     (.RP001_V1_0_3_REV_A, "IN_865_867_RP1_V1_0_3_Rev_A"),
     (.RP001_V1_1_REV_A, "IN_865_867_RP1_V1_1_Rev_A"),
     (.RP001_V1_1_REV_B, "IN_865_867_RP1_V1_1_Rev_B"),
     (.RP002_V1_0_0, "IN_865_867_RP2_V1_0_0")]),
   ("ISM_2400",
    [(.TS001_V1_0, "ISM_2400_Universal"),
     (.TS001_V1_0_1, "ISM_2400_Universal"),
     (.RP001_V1_0_2, "ISM_2400_Universal"),
     (.RP001_V1_0_2_REV_B, "ISM_2400_Universal"),
     (.RP001_V1_0_3_REV_A, "ISM_2400_Universal"),
     (.RP001_V1_1_REV_A, "ISM_2400_Universal"),
     (.RP001_V1_1_REV_B, "ISM_2400_Universal"),
     (.RP002_V1_0_0, "ISM_2400_Universal")]),
   ("KR_920_923",
    [(.RP001_V1_0_2, "KR_920_923_RP1_V1_0_2"),
     (.RP001_V1_0_2_REV_B, "KR_920_923_RP1_V1_0_2_Rev_B"),
     (.RP001_V1_0_3_REV_A, "KR_920_923_RP1_V1_0_3_Rev_A"),
     (.RP001_V1_1_REV_A, "KR_920_923_RP1_V1_1_Rev_A"),
     (.RP001_V1_1_REV_B, "KR_920_923_RP1_V1_1_Rev_B"),
     (.RP002_V1_0_0, "KR_920_923_RP2_V1_0_0")]),
   ("RU_864_870",
    [(.RP001_V1_0_3_REV_A, "RU_864_870_RP1_V1_0_3_Rev_A"),
     (.RP001_V1_1_REV_A, "RU_864_870_RP1_V1_1_Rev_A"),
     (.RP001_V1_1_REV_B, "RU_864_870_RP1_V1_1_Rev_B"),
     (.RP002_V1_0_0, "RU_864_870_RP2_V1_0_0")]),
   ("US_902_928",
    [(.TS001_V1_0, "US_902_928_TS1_V1_0"),
     (.TS001_V1_0_1, "US_902_928_TS1_V1_0_1"),
     (.RP001_V1_0_2, "US_902_928_RP1_V1_0_2"),
     (.RP001_V1_0_2_REV_B, "US_902_928_RP1_V1_0_2_Rev_B"),
     (.RP001_V1_0_3_REV_A, "US_902_928_RP1_V1_0_3_Rev_A"),
     (.RP001_V1_1_REV_A, "US_902_928_RP1_V1_1_Rev_A"),
     (.RP001_V1_1_REV_B, "US_902_928_RP1_V1_1_Rev_B"),
     (.RP002_V1_0_0, "US_902_928_RP2_V1_0_0")])]

/-- The `Get` function of `pkg/band`: look up the region id in `All`, then
the protocol version in the region's entry, returning `errBandNotFound` on
either miss. -/
def Get (id : String) (version : PHYVersion) : Except BandError String :=
  match All.lookup id with
  | none => .error .bandNotFound
  | some versions =>
    match versions.lookup version with
    | none => .error .bandNotFound
    | some b => .ok b

/-- The fixed build-time constant `latestSupportedVersion` of `pkg/band`. -/
def latestSupportedVersion : PHYVersion := .RP001_V1_1_REV_B

/-- The `GetLatest` function of `pkg/band`: `Get` at the fixed latest
supported version. -/
def GetLatest (id : String) : Except BandError String :=
  Get id latestSupportedVersion

/-! Embedding of the websocket traffic handler
(`pkg/gatewayserver/io/ws/ws.go`, `handleTraffic`). The inbound read loop,
the queued-downlink branch of the writer goroutine, and the request-setup
prefix are each modelled as explicit step functions whose oracle parameters
stand for the outcomes of the external calls (rate limiter, socket reads and
writes, formatter, server). -/

/-- Outcome of `s.formatter.HandleUp` in one read-loop iteration: an error,
no downstream reply, or a downstream reply whose websocket write succeeds or
fails. -/
inductive UpResult
  | fail
  | noDownstream
  | downstream (writeOk : Bool)
deriving DecidableEq, Repr

/-- External outcomes of one iteration of the inbound read loop. -/
structure LoopInput where
  requireOk : Bool
  readOk : Bool
  upResult : UpResult
deriving DecidableEq, Repr

/-- Observable actions of the inbound read loop, in program order. -/
inductive TrafficEvent
  | rateCheck (ok : Bool)
  | readMsg
  | handleUp
  | writeDownstream
  | disconnect
deriving DecidableEq, Repr

/-- One iteration of the read loop of `handleTraffic` (lines 316-342):
`ratelimit.Require` first; on failure the connection is disconnected and the
loop returns. Otherwise `ws.ReadMessage`, then `formatter.HandleUp`, then an
optional downstream write whose failure disconnects. The returned flag says
whether the loop continues with the next iteration. -/
def iterEvents (i : LoopInput) : List TrafficEvent × Bool :=
  if !i.requireOk then ([.rateCheck false, .disconnect], false)
  else if !i.readOk then ([.rateCheck true, .readMsg], false)
  else
    match i.upResult with
    | .fail => ([.rateCheck true, .readMsg, .handleUp], false)
    | .noDownstream => ([.rateCheck true, .readMsg, .handleUp], true)
    | .downstream true =>
      ([.rateCheck true, .readMsg, .handleUp, .writeDownstream], true)
    | .downstream false =>
      ([.rateCheck true, .readMsg, .handleUp, .writeDownstream, .disconnect], false)

/-- The trace of the inbound read loop over a finite prefix of iteration
outcomes. -/
def runTrafficLoop : List LoopInput → List TrafficEvent
  | [] => []
  | i :: rest =>
    (iterEvents i).1 ++ (if (iterEvents i).2 then runTrafficLoop rest else [])

/-- Recognizes traces in which every message read is immediately preceded by
a successful rate-limit check; the flag carries whether the previous event
was a successful check. -/
def checkGuarded : Bool → List TrafficEvent → Bool
  | _, [] => true
  | prev, e :: rest =>
    (match e with
     | .readMsg => prev
     | _ => true) &&
    checkGuarded
      (match e with
       | .rateCheck true => true
       | _ => false) rest

/-- Outcome of the queued-downlink branch of the writer goroutine. -/
inductive DownOutcome
  | droppedNoClock
  | droppedEncodeFailed
  | sent
  | disconnected
deriving DecidableEq, Repr

/-- Side effects the queued-downlink branch performs, in program order. The
branch has no action addressing the downlink's originator. -/
inductive WsAction
  | logWarn
  | writeWire
  | disconnectConn
deriving DecidableEq, Repr

/-- The `down := <-conn.Down()` case of `handleTraffic` (lines 291-311):
`conn.TimeFromTimestampTime` failing (clock not synchronized) logs a warning
and continues; `formatter.FromDownlink` failing logs a warning and continues;
a successful encoding is written to the websocket, and only a write failure
disconnects the connection. -/
def handleQueuedDownlink (timeFromTimestamp : Option Nat)
    (fromDownlink : Nat → Except Unit Nat) (writeOk : Bool) :
    DownOutcome × List WsAction :=
  match timeFromTimestamp with
  | none => (.droppedNoClock, [.logWarn])
  | some concentratorTime =>
    match fromDownlink concentratorTime with
    | .error _ => (.droppedEncodeFailed, [.logWarn])
    | .ok _ =>
      if writeOk then (.sent, [.writeWire])
      else (.disconnected, [.writeWire, .logWarn, .disconnectConn])

/-- Hexadecimal digit predicate of the `eui-` path pattern
(`[a-f0-9A-F]` in `euiHexPattern`). -/
def isHexChar (c : Char) : Bool :=
  ('0' ≤ c && c ≤ '9') || ('a' ≤ c && c ≤ 'f') || ('A' ≤ c && c ≤ 'F')

/-- The regular expression `^eui-([a-f0-9A-F]{16})$` of
`pkg/gatewayserver/io/ws/ws.go` line 137: the submatch is the 16 hex digits
following the literal prefix `eui-`, or `none` when the id does not match. -/
def euiHexMatch : List Char → Option (List Char)
  | 'e' :: 'u' :: 'i' :: '-' :: rest =>
    if rest.length = 16 && rest.all isHexChar then some rest else none
  | _ => none

/-- Value of one hexadecimal digit, `none` for a non-hex character
(Go's `hex.DecodeString` digit handling). -/
def hexVal (c : Char) : Option Nat :=
  if '0' ≤ c && c ≤ '9' then some (c.toNat - 48)
  else if 'a' ≤ c && c ≤ 'f' then some (c.toNat - 87)
  else if 'A' ≤ c && c ≤ 'F' then some (c.toNat - 55)
  else none

/-- Go's `hex.DecodeString`: pairs of hex digits to bytes; fails on odd
length or a non-hex digit. -/
def hexDecode : List Char → Option (List Nat)
  | [] => some []
  | [_] => none
  | c1 :: c2 :: rest =>
    match hexVal c1, hexVal c2, hexDecode rest with
    | some hi, some lo, some bs => some ((16 * hi + lo) :: bs)
    | _, _, _ => none

/-- Oracle outcomes for the external calls of the `handleTraffic` setup
sequence. -/
structure TrafficEnv where
  fillOk : Bool
  hasAuth : Bool
  allowUnauthenticated : Bool
  connectOk : Bool
  upgradeOk : Bool
deriving DecidableEq, Repr

/-- Failures of the `handleTraffic` setup sequence; `invalidGatewayID` is
`errGatewayID` of `pkg/gatewayserver/io/ws/ws.go` lines 46-48. -/
inductive WsError
  | invalidGatewayID
  | noAuthProvided
  | fillFailed
  | connectFailed
  | upgradeFailed
deriving DecidableEq, Repr

/-- State-creating calls performed by the `handleTraffic` setup sequence, in
program order. -/
inductive TrafficAction
  | fillGatewayContext
  | connect
  | upgrade
  | disconnectConn
deriving DecidableEq, Repr

/-- The setup sequence of `handleTraffic` (lines 139-228): match the path id
against `euiHexPattern` and hex-decode the submatch, failing with
`errGatewayID` on either miss before any other call; then
`server.FillGatewayContext`, the authorization check (`errNoAuthProvided`
when no auth is given and unauthenticated connections are not allowed),
`server.Connect`, and the websocket upgrade, whose failure disconnects the
just-created connection. -/
def handleTrafficSetup (id : List Char) (env : TrafficEnv) :
    Except WsError Unit × List TrafficAction :=
  match euiHexMatch id with
  | none => (.error .invalidGatewayID, [])
  | some sub =>
    match hexDecode sub with
    | none => (.error .invalidGatewayID, [])
    | some _ =>
      if !env.fillOk then (.error .fillFailed, [.fillGatewayContext])
      else if !env.hasAuth && !env.allowUnauthenticated then
        (.error .noAuthProvided, [.fillGatewayContext])
      else if !env.connectOk then
        (.error .connectFailed, [.fillGatewayContext, .connect])
      else if !env.upgradeOk then
        (.error .upgradeFailed,
         [.fillGatewayContext, .connect, .upgrade, .disconnectConn])
      else (.ok (), [.fillGatewayContext, .connect, .upgrade])

/-- Claim C1 (counterexample): the claim asserts that for every valid input
triple the RX1 derivation returns an index at most `MaxADRDataRateIndex`.
For the AS923 RP2 v1.0.2 band, the valid uplink data rate `DATA_RATE_7` with
offset 0 and no dwell time yields `DATA_RATE_7`, which exceeds the band's
`MaxADRDataRateIndex` of `DATA_RATE_5`. -/
theorem as923Rx1DataRate_exceeds_maxADR :
    as923Rx1DataRate 7 0 false = Except.ok 7 ∧
    AS_923_RP2_v1_0_2_MaxADRDataRateIndex < 7 := by
  decide

/-- Helper: the final clamp switch of the AS923 RX1 rule keeps its result
between 0 and 7 whenever the lower clamp value lies in that range. -/
theorem rx1ClampRange (si minDR r : Int) (h0 : 0 ≤ minDR) (h7 : minDR ≤ 7)
    (h : (if si ≤ minDR then (Except.ok minDR : Except BandError Int)
          else if si ≥ 7 then .ok 7 else .ok si) = .ok r) :
    0 ≤ r ∧ r ≤ 7 := by
  split at h
  · simp only [Except.ok.injEq] at h
    omega
  · split at h <;> simp only [Except.ok.injEq] at h <;> omega

/-- Claim C1 (amended): for every input, a successful result of the AS923
RP2 v1.0.2 RX1 derivation lies within the band's data-rate range [0, 7]
(`DATA_RATE_0` to `DATA_RATE_7`), and for every in-bounds input the
CN470-510-26A RP2 v1.0.0 RX1 derivation returns an index within [0, 5]
(here 5 coincides with `MaxADRDataRateIndex`). The upper bound for AS923 is
the band's maximum data rate `DATA_RATE_7`, not `MaxADRDataRateIndex`. -/
theorem rx1DataRate_within_band_range (idx offset : Nat) (d : Bool) (r : Int) :
    (as923Rx1DataRate idx offset d = .ok r → 0 ≤ r ∧ r ≤ 7) ∧
    (idx ≤ 5 → offset ≤ 5 → cn47051026ARx1DataRate idx offset d = .ok r →
      0 ≤ r ∧ r ≤ CN_470_510_26_A_RP2_v1_0_0_MaxADRDataRateIndex) := by
  constructor
  · intro h
    simp only [as923Rx1DataRate] at h
    refine rx1ClampRange _ _ r ?_ ?_ h
    · cases d <;> norm_num
    · cases d <;> norm_num
  · intro h1 h2 h
    simp only [cn47051026ARx1DataRate, cn470510DownlinkDRTable] at h
    rw [if_neg (by omega), if_neg (by omega)] at h
    simp only [Except.ok.injEq] at h
    subst h
    refine ⟨Int.natCast_nonneg _, ?_⟩
    have hm : min 5 (idx - offset) ≤ 5 := Nat.min_le_left _ _
    simp only [CN_470_510_26_A_RP2_v1_0_0_MaxADRDataRateIndex]
    exact_mod_cast hm

/-- Claim C1 (witness): the amended range theorem applied at the concrete
input (idx 3, offset 1, no dwell time), where both bands return
`DATA_RATE_2`. -/
theorem rx1DataRate_within_band_range_witness :
    (0 ≤ (2 : Int) ∧ (2 : Int) ≤ 7) ∧
    (0 ≤ (2 : Int) ∧ (2 : Int) ≤ CN_470_510_26_A_RP2_v1_0_0_MaxADRDataRateIndex) :=
  ⟨(rx1DataRate_within_band_range 3 1 false 2).1 (by decide),
   (rx1DataRate_within_band_range 3 1 false 2).2 (by decide) (by decide) (by decide)⟩

/-- Claim C2: for every valid input (uplink data-rate index below 16, offset
below 8), the AS923 RP2 v1.0.2 RX1 derivation succeeds and returns exactly
the value described by the claim: the folded signed offset subtracted from
the index, clamped below to `DATA_RATE_2` under dwell time (`DATA_RATE_0`
otherwise) and above to `DATA_RATE_7`. -/
theorem as923Rx1DataRate_eq_spec_formula :
    ∀ idx < 16, ∀ offset < 8, ∀ d : Bool,
      as923Rx1DataRate idx offset d = .ok (as923Rx1SpecFormula idx offset d) := by
  decide

/-- Claim C2 (witness): the claim's formula theorem applied at the concrete
input (idx 3, offset 6, dwell time active): the folded offset is `5 - 6 = -1`,
so the result is `3 - (-1) = 4`. -/
theorem as923Rx1DataRate_eq_spec_formula_witness :
    as923Rx1DataRate 3 6 true = Except.ok 4 := by
  rw [as923Rx1DataRate_eq_spec_formula 3 (by decide) 6 (by decide) true]
  decide

/-- Claim C3 (counterexample): the claim asserts every band's RX1 derivation
fails with a data-rate-index-too-high error when the uplink index exceeds the
table's maximum. The AS923 RP2 v1.0.2 table's maximum index is `DATA_RATE_7`,
yet at index 8 the band's `Rx1DataRate` succeeds (clamping to `DATA_RATE_7`)
instead of returning an error. -/
theorem as923Rx1DataRate_no_error_beyond_max :
    as923Rx1DataRate 8 0 false = Except.ok 7 := by
  decide

/-- Claim C3 (amended): the CN470-510-26A RP2 v1.0.0 RX1 derivation fails
with `errDataRateIndexTooHigh` when the index exceeds 5, fails with
`errDataRateOffsetTooHigh` when the index is in bounds but the offset
exceeds 5, and succeeds on all in-bounds inputs; the AS923 RP2 v1.0.2 RX1
derivation never fails, clamping out-of-range inputs instead. -/
theorem rx1DataRate_error_conditions (idx offset : Nat) (d : Bool) :
    (5 < idx → cn47051026ARx1DataRate idx offset d = .error .dataRateIndexTooHigh) ∧
    (idx ≤ 5 → 5 < offset →
      cn47051026ARx1DataRate idx offset d = .error .dataRateOffsetTooHigh) ∧
    (idx ≤ 5 → offset ≤ 5 → ∃ r, cn47051026ARx1DataRate idx offset d = .ok r) ∧
    (∃ r, as923Rx1DataRate idx offset d = .ok r) := by
  refine ⟨?_, ?_, ?_, ?_⟩
  · intro h
    simp only [cn47051026ARx1DataRate]
    rw [if_pos (by omega)]
  · intro h1 h2
    simp only [cn47051026ARx1DataRate]
    rw [if_neg (by omega), if_pos (by omega)]
  · intro h1 h2
    simp only [cn47051026ARx1DataRate]
    rw [if_neg (by omega), if_neg (by omega)]
    exact ⟨_, rfl⟩
  · simp only [as923Rx1DataRate]
    repeat' split
    all_goals exact ⟨_, rfl⟩

/-- Claim C3 (witness): the amended error-condition theorem applied at
concrete inputs covering all four conjuncts. -/
theorem rx1DataRate_error_conditions_witness :
    cn47051026ARx1DataRate 6 0 false = Except.error .dataRateIndexTooHigh ∧
    cn47051026ARx1DataRate 1 6 false = Except.error .dataRateOffsetTooHigh ∧
    (∃ r, cn47051026ARx1DataRate 3 1 false = Except.ok r) ∧
    (∃ r, as923Rx1DataRate 3 1 false = Except.ok r) :=
  ⟨(rx1DataRate_error_conditions 6 0 false).1 (by decide),
   (rx1DataRate_error_conditions 1 6 false).2.1 (by decide) (by decide),
   (rx1DataRate_error_conditions 3 1 false).2.2.1 (by decide) (by decide),
   (rx1DataRate_error_conditions 3 1 false).2.2.2⟩

/-- Claim C4: the channel-mask codec round-trips for every subset of the
band's channel indices — at width 16 (AS923) and at width 48
(CN470-510-26A, three 16-bit blocks) — including the empty and full sets. -/
theorem parseChMask_generateChMasks_roundTrip :
    (∀ s : Fin 16 → Bool, parseChMask16 (generateChMask16 s) = s) ∧
    (∀ s : Fin 48 → Bool, parseChMask48 (generateChMask48 s) = s) := by
  constructor
  · intro s
    funext i
    rfl
  · intro s
    funext i
    simp only [parseChMask48, generateChMask48]
    split
    · congr 1
    · split
      · congr 1
        apply Fin.ext
        simp only []
        omega
      · congr 1
        apply Fin.ext
        simp only []
        omega

/-- Claim C5: XTime encoding round-trips — for every session id in its valid
range and every concentrator time in its valid range (48 bits), decoding the
encoded value recovers exactly the session id and the concentrator time,
because the two occupy disjoint bit ranges of the single counter. -/
theorem xtime_roundTrip (sessionID concentratorTime : Nat)
    (hs : sessionID < 2 ^ 16) (ht : concentratorTime < 2 ^ 48) :
    SessionIDFromXTime (encodeXTime sessionID concentratorTime) = sessionID ∧
    ConcentratorTimeFromXTime (encodeXTime sessionID concentratorTime) =
      concentratorTime := by
  have h48 : (2 : Nat) ^ 48 = 281474976710656 := by norm_num
  simp only [SessionIDFromXTime, ConcentratorTimeFromXTime, encodeXTime, h48] at *
  omega

/-- Claim C5 (witness): the round-trip theorem applied at the session id 0x42
and the concentrator time 890 microseconds used by `TestTransferTime`. -/
theorem xtime_roundTrip_witness :
    SessionIDFromXTime (encodeXTime 66 890) = 66 ∧
    ConcentratorTimeFromXTime (encodeXTime 66 890) = 890 :=
  xtime_roundTrip 66 890 (by norm_num) (by norm_num)

/-- Claim C6: `Get` fails with `BandNotFound` exactly when the pair
(id, version) is absent from the registry — either the region id has no
entry in `All`, or the region's entry has no table for that version — and
otherwise returns the registered band table. -/
theorem get_bandNotFound_iff_absent (id : String) (version : PHYVersion) :
    (∀ b, Get id version = .ok b ↔
      (All.lookup id).bind (fun versions => versions.lookup version) = some b) ∧
    (Get id version = .error .bandNotFound ↔
      (All.lookup id).bind (fun versions => versions.lookup version) = none) := by
  constructor
  · intro b
    simp only [Get]
    cases h1 : All.lookup id with
    | none => simp
    | some versions =>
      cases h2 : versions.lookup version with
      | none => simp [h2]
      | some b2 => simp [h2]
  · simp only [Get]
    cases h1 : All.lookup id with
    | none => simp
    | some versions =>
      cases h2 : versions.lookup version with
      | none => simp [h2]
      | some b2 => simp [h2]

/-- Claim C7: for every region id, `GetLatest` returns exactly the result of
`Get` at the fixed build-time constant `latestSupportedVersion`, which is
`RP001_V1_1_REV_B`; it consults no other version. -/
theorem getLatest_eq_get_fixed_version (id : String) :
    GetLatest id = Get id PHYVersion.RP001_V1_1_REV_B ∧
    latestSupportedVersion = PHYVersion.RP001_V1_1_REV_B :=
  ⟨rfl, rfl⟩

/-- Claim C8: in the inbound read loop, every read of a wire message is
immediately preceded by a successful `ratelimit.Require` check of the same
iteration, and a failed check disconnects the connection and terminates the
loop with no further events. -/
theorem trafficLoop_rateLimited (inputs : List LoopInput) (i : LoopInput)
    (rest : List LoopInput) :
    checkGuarded false (runTrafficLoop inputs) = true ∧
    (i.requireOk = false →
      runTrafficLoop (i :: rest) = [.rateCheck false, .disconnect]) := by
  constructor
  · induction inputs with
    | nil => rfl
    | cons j tl ih =>
      rcases j with ⟨ro, rdo, ur⟩
      cases ro
      · simp [runTrafficLoop, iterEvents, checkGuarded]
      · cases rdo
        · simp [runTrafficLoop, iterEvents, checkGuarded]
        · rcases ur with _ | _ | wb
          · simp [runTrafficLoop, iterEvents, checkGuarded]
          · simpa [runTrafficLoop, iterEvents, checkGuarded] using ih
          · cases wb
            · simp [runTrafficLoop, iterEvents, checkGuarded]
            · simpa [runTrafficLoop, iterEvents, checkGuarded] using ih
  · intro h
    simp [runTrafficLoop, iterEvents, h]

/-- Claim C8 (witness): the loop theorem applied to a one-iteration trace
with a successful check and to a trace whose first check fails. -/
theorem trafficLoop_rateLimited_witness :
    checkGuarded false
      (runTrafficLoop [⟨true, true, .noDownstream⟩]) = true ∧
    runTrafficLoop [⟨false, true, .noDownstream⟩] =
      [.rateCheck false, .disconnect] :=
  ⟨(trafficLoop_rateLimited [⟨true, true, .noDownstream⟩]
      ⟨false, true, .noDownstream⟩ []).1,
   (trafficLoop_rateLimited [⟨true, true, .noDownstream⟩]
      ⟨false, true, .noDownstream⟩ []).2 rfl⟩

/-- Claim C9 (counterexample): the claim asserts an untransmittable queued
downlink always yields an explicit rejection to its originator. When the
clock is not synchronized the branch produces only a log entry and drops the
downlink — no action addressed to the originator exists in this code path. -/
theorem queuedDownlink_droppedSilently :
    handleQueuedDownlink none (fun _ => Except.ok 0) true =
      (DownOutcome.droppedNoClock, [WsAction.logWarn]) := by
  decide

/-- Claim C9 (amended): a queued downlink whose scheduled timestamp cannot be
converted to concentrator time, or whose wire encoding fails, is dropped
after logging a warning and the loop continues; no rejection reason reaches
the originator. A successful encoding is written to the wire, and only a
write failure disconnects the connection. -/
theorem queuedDownlink_behavior (timeFromTimestamp : Option Nat)
    (fromDownlink : Nat → Except Unit Nat) (writeOk : Bool) :
    (timeFromTimestamp = none →
      handleQueuedDownlink timeFromTimestamp fromDownlink writeOk =
        (.droppedNoClock, [.logWarn])) ∧
    (∀ ct e, timeFromTimestamp = some ct → fromDownlink ct = .error e →
      handleQueuedDownlink timeFromTimestamp fromDownlink writeOk =
        (.droppedEncodeFailed, [.logWarn])) ∧
    (∀ ct m, timeFromTimestamp = some ct → fromDownlink ct = .ok m →
      writeOk = true →
      handleQueuedDownlink timeFromTimestamp fromDownlink writeOk =
        (.sent, [.writeWire])) ∧
    (∀ ct m, timeFromTimestamp = some ct → fromDownlink ct = .ok m →
      writeOk = false →
      handleQueuedDownlink timeFromTimestamp fromDownlink writeOk =
        (.disconnected, [.writeWire, .logWarn, .disconnectConn])) := by
  refine ⟨?_, ?_, ?_, ?_⟩
  · intro h
    subst h
    rfl
  · intro ct e h1 h2
    subst h1
    simp [handleQueuedDownlink, h2]
  · intro ct m h1 h2 h3
    subst h1
    subst h3
    simp [handleQueuedDownlink, h2]
  · intro ct m h1 h2 h3
    subst h1
    subst h3
    simp [handleQueuedDownlink, h2]

/-- Claim C9 (witness): the amended behavior theorem applied at concrete
inputs covering all four branches. -/
theorem queuedDownlink_behavior_witness :
    handleQueuedDownlink none (fun _ => Except.ok 0) true =
      (.droppedNoClock, [.logWarn]) ∧
    handleQueuedDownlink (some 5) (fun _ => Except.error ()) true =
      (.droppedEncodeFailed, [.logWarn]) ∧
    handleQueuedDownlink (some 5) (fun _ => Except.ok 0) true =
      (.sent, [.writeWire]) ∧
    handleQueuedDownlink (some 5) (fun _ => Except.ok 0) false =
      (.disconnected, [.writeWire, .logWarn, .disconnectConn]) :=
  ⟨(queuedDownlink_behavior none (fun _ => Except.ok 0) true).1 rfl,
   (queuedDownlink_behavior (some 5) (fun _ => Except.error ()) true).2.1
     5 () rfl rfl,
   (queuedDownlink_behavior (some 5) (fun _ => Except.ok 0) true).2.2.1
     5 0 rfl rfl rfl,
   (queuedDownlink_behavior (some 5) (fun _ => Except.ok 0) false).2.2.2
     5 0 rfl rfl rfl⟩

/-- Claim C10: a traffic request whose path id does not match
`eui-<16 hex digits>` fails with `errGatewayID` before any gateway context is
filled, any connection is created, or the websocket is upgraded: the action
list is empty, so no server state is created. -/
theorem handleTraffic_invalid_id_rejected_early (id : List Char)
    (env : TrafficEnv) (h : euiHexMatch id = none) :
    handleTrafficSetup id env = (.error .invalidGatewayID, []) := by
  simp [handleTrafficSetup, h]

/-- Claim C10 (witness): the early-rejection theorem applied to the concrete
non-matching id `gw1` under a fully permissive environment. -/
theorem handleTraffic_invalid_id_rejected_early_witness :
    handleTrafficSetup ['g', 'w', '1'] ⟨true, true, true, true, true⟩ =
      (.error .invalidGatewayID, []) :=
  handleTraffic_invalid_id_rejected_early ['g', 'w', '1']
    ⟨true, true, true, true, true⟩ (by decide)

end LorawanStack
